import Mathlib

/-!
# Verification of the Miro DAAP sharing engine (`tv/lib/sharing.py`)

A shallow embedding of the sharing subsystem of the Miro media player:
the mDNS discovery tracker (`SharingTracker`), the per-share database
allocation (`Share`), the client-side playlist tracker
(`_ClientPlaylistTracker` / `SharingItemTrackerImpl`) and the DAAP server
backend (`SharingManagerBackend`).  Python dicts are embedded as
association lists, threads' interleavings as explicit event lists, and
fallible code as `Option`/`Except` values.  Each definition mirrors one
function of the source; theorems at the end settle the specification's
claims against these definitions.
-/

namespace Sharing

/-! ## Association-list helpers (embedding of Python `dict`) -/

/-- Remove the binding for key `k` (Python `del d[k]`, total version). -/
def dremove {K V : Type} [DecidableEq K] (m : List (K × V)) (k : K) :
    List (K × V) :=
  m.filter (fun p => decide (p.1 ≠ k))

/-- Set the binding for key `k` (Python `d[k] = v`). -/
def dset {K V : Type} [DecidableEq K] (m : List (K × V)) (k : K) (v : V) :
    List (K × V) :=
  (k, v) :: dremove m k

theorem lookup_dset_self {K V : Type} [DecidableEq K] [BEq K] [LawfulBEq K]
    (m : List (K × V)) (k : K) (v : V) :
    (dset m k v).lookup k = some v := by
  simp [dset, List.lookup]

theorem lookup_dset_ne {K V : Type} [DecidableEq K] [BEq K] [LawfulBEq K]
    (m : List (K × V)) (k k' : K) (v : V) (h : k' ≠ k) :
    (dset m k v).lookup k' = (dremove m k).lookup k' := by
  simp [dset, List.lookup, beq_eq_false_iff_ne.mpr h]

theorem lookup_dremove_self {K V : Type} [DecidableEq K] [BEq K] [LawfulBEq K]
    (m : List (K × V)) (k : K) :
    (dremove m k).lookup k = none := by
  induction m with
  | nil => rfl
  | cons p rest ih =>
      by_cases h : p.1 = k
      · simpa [dremove, h] using ih
      · simpa [dremove, h, List.lookup, beq_eq_false_iff_ne.mpr (Ne.symm h)]
          using ih

/-! ## `Share` database-path allocation (`Share.__init__`, `find_unused_db`,
`destroy`)

The process-wide state is the class attribute `Share._used_db_paths`
together with the filesystem.  Files are modelled as a list of paths each
tagged with a flag saying whether `os.remove` would succeed on it (the
`EnvironmentError` branch of `find_unused_db`). -/

/-- The process-wide state `find_unused_db` probes: the class-level
`_used_db_paths` set plus the support-directory contents. -/
structure ShareEnv where
  used_db_paths : List String
  /-- existing files: path ↦ whether `os.remove` succeeds on it -/
  files : List (String × Bool)
  deriving DecidableEq

/-- Candidate path `sharing-db-<i>` probed by `Share.find_unused_db`. -/
def sharingDbCandidate (i : Nat) : String :=
  "sharing-db-" ++ toString i

/-- One probe step of `Share.find_unused_db`: skip a candidate that is in
`_used_db_paths`; delete a stale existing file (skipping it instead if the
removal fails); claim the first free candidate.  `n` is the number of
probes left out of the 300 of `xrange(300)`; exhaustion models the
`AssertionError`. -/
def find_unused_db_from (env : ShareEnv) : Nat → Nat →
    Option (String × ShareEnv)
  | 0, _ => none
  | n + 1, i =>
      let candidate := sharingDbCandidate i
      if candidate ∈ env.used_db_paths then
        find_unused_db_from env n (i + 1)
      else
        match env.files.lookup candidate with
        | some removable =>
            if removable then
              some (candidate, { env with files := dremove env.files candidate })
            else
              find_unused_db_from env n (i + 1)
        | none => some (candidate, env)

/-- `Share.find_unused_db`: probe `sharing-db-0` … `sharing-db-299`. -/
def find_unused_db (env : ShareEnv) : Option (String × ShareEnv) :=
  find_unused_db_from env 300 0

/-- The part of a `Share` object relevant to database allocation. -/
structure ShareObj where
  db_path : Option String
  deriving DecidableEq

/-- `Share.__init__`: allocate a db path with `find_unused_db`, then add it
to the process-wide `_used_db_paths` set. -/
def share_init (env : ShareEnv) : Option (ShareObj × ShareEnv) :=
  match find_unused_db env with
  | none => none
  | some (path, env') =>
      some ({ db_path := some path },
            { env' with used_db_paths := path :: env'.used_db_paths })

/-- `Share.destroy`: close the db, delete the db file, null the fields.
Note that it does not touch `_used_db_paths`. -/
def share_destroy (env : ShareEnv) (sh : ShareObj) : ShareObj × ShareEnv :=
  let env' :=
    match sh.db_path with
    | some p => { env with files := dremove env.files p }
    | none => env
  ({ db_path := none }, env')

/-! ## `SharingTracker` — mDNS discovery (`mdns_callback_backend`,
`try_to_add`)

The eventloop runs these handlers one at a time, so each is a pure state
transition.  Python's builtin `hash` on the `(host, port)` tuple is an
unspecified integer function and is passed in as a parameter `hashFn`;
`uuid.uuid4()` stamps are passed in as the parameter `freshUuid`. -/

/-- The fields of `messages.SharingInfo` that `sharing.py` reads or
writes.  Modelled from the spec: `messages.SharingInfo` itself is not
under `src/`; per the spec a new share starts unavailable and unmounted
(`share_available` is set true only by the test-connect success callback,
`mount` only when a connection succeeds), with no pending stale-removal
timer.  `stale_callback` records whether such a timer is pending. -/
structure SharingInfoRec where
  name : String
  host : String
  port : Nat
  connect_uuid : Option Nat
  share_available : Bool
  mount : Bool
  stale_callback : Bool
  deriving DecidableEq

/-- Frontend messages emitted by the tracker. -/
inductive FrontendMessage where
  | tabsChangedAdded (info : SharingInfoRec)
  | tabsChangedChanged (info : SharingInfoRec)
  | sharingDisappeared (info : SharingInfoRec)
  deriving DecidableEq

/-- The `SharingTracker` state: `name_to_id_map`, the `trackers` dict
(modelled by its key set, the connected share ids), the `shares` dict
(key set) and `available_shares`, plus the stream of messages sent to the
frontend. -/
structure TrackerState where
  name_to_id_map : List (String × Nat)
  trackers : List Nat
  shares : List Nat
  available_shares : List (Nat × SharingInfoRec)
  messages : List FrontendMessage
  deriving DecidableEq

/-- `SharingTracker.mdns_callback_backend`, `added=True` branch.
Computes `share_id = abs(hash((host, port)))`, binds
`name_to_id_map[fullname]`, then either treats the event as a rename of a
connected share, refreshes an already-known share, or creates a new
`Share` eagerly with a fresh `connect_uuid` and schedules `try_to_add`
(whose callbacks are the separate transitions below). -/
def mdns_added (hashFn : String → Nat → Int) (selfName : String)
    (st : TrackerState) (fullname host : String) (port : Nat)
    (freshUuid : Nat) : TrackerState :=
  if fullname = selfName then st
  else
    let share_id := (hashFn host port).natAbs
    let st1 := { st with
      name_to_id_map := dset st.name_to_id_map fullname share_id }
    match st1.available_shares.find?
        (fun p => p.2.mount && p.2.host == host && p.2.port == port) with
    | some (k, info0) =>
        -- connected share with the same (host, port): pure rename
        let info := { info0 with stale_callback := false, name := fullname }
        { st1 with
          available_shares := dset st1.available_shares k info,
          messages := st1.messages ++ [.tabsChangedChanged info] }
    | none =>
        match st1.available_shares.lookup share_id with
        | some info0 =>
            -- previously added share: refresh the name
            let info := { info0 with name := fullname }
            if info.share_available then
              let info := { info with stale_callback := false }
              { st1 with
                available_shares := dset st1.available_shares share_id info,
                messages := st1.messages ++ [.tabsChangedChanged info] }
            else
              { st1 with
                available_shares := dset st1.available_shares share_id info }
        | none =>
            -- brand new share: create Share + SharingInfo, stamp a fresh
            -- connect_uuid, schedule the off-thread test connect
            let info : SharingInfoRec :=
              { name := fullname, host := host, port := port,
                connect_uuid := some freshUuid, share_available := false,
                mount := false, stale_callback := false }
            { st1 with
              shares := share_id :: st1.shares,
              available_shares := dset st1.available_shares share_id info }

/-- `try_to_add.success`: fence on the `connect_uuid` stamp, then mark the
share available and publish its tab. -/
def try_to_add_success (st : TrackerState) (share_id : Nat) (u : Nat) :
    TrackerState :=
  match st.available_shares.lookup share_id with
  | none => st
  | some info0 =>
      if info0.connect_uuid ≠ some u then st
      else
        let info := { info0 with connect_uuid := none,
                                 share_available := true }
        { st with
          available_shares := dset st.available_shares share_id info,
          messages := st.messages ++ [.tabsChangedAdded info] }

/-- `try_to_add.failure`: fence on the `connect_uuid` stamp, then clear it
(and nothing else — in particular no message and no removal). -/
def try_to_add_failure (st : TrackerState) (share_id : Nat) (u : Nat) :
    TrackerState :=
  match st.available_shares.lookup share_id with
  | none => st
  | some info0 =>
      if info0.connect_uuid ≠ some u then st
      else
        let info := { info0 with connect_uuid := none }
        { st with
          available_shares := dset st.available_shares share_id info }

/-- `SharingTracker.mdns_callback_backend`, `added=False` branch.  `none`
models an uncaught `KeyError` (only the `name_to_id_map` lookup is inside
a `try`).  A share that is not connected is removed immediately, with
`SharingDisappeared` emitted exactly when `victim.connect_uuid is None`;
a connected share gets a 2-second stale-removal timer instead. -/
def mdns_removed (selfName : String) (st : TrackerState)
    (fullname : String) : Option TrackerState :=
  if fullname = selfName then some st
  else
    match st.name_to_id_map.lookup fullname with
    | none => some st  -- KeyError: already taken care of
    | some share_id =>
        let st1 := { st with
          name_to_id_map := dremove st.name_to_id_map fullname }
        if share_id ∈ st1.name_to_id_map.map (·.2) then
          some st1  -- out-of-order add/remove during rename
        else if share_id ∉ st1.trackers then
          match st1.available_shares.lookup share_id with
          | none => none  -- uncaught KeyError on available_shares[share_id]
          | some victim =>
              if share_id ∈ st1.shares then
                let st2 := { st1 with
                  available_shares := dremove st1.available_shares share_id,
                  shares := st1.shares.filter (fun x => decide (x ≠ share_id)) }
                if victim.connect_uuid = none then
                  some { st2 with
                    messages := st2.messages ++ [.sharingDisappeared victim] }
                else
                  some st2
              else none  -- uncaught KeyError in destroy_share
        else
          match st1.available_shares.lookup share_id with
          | none => none  -- uncaught KeyError on available_shares[share_id]
          | some info0 =>
              -- schedule remove_timeout_callback in 2s, cancelling any
              -- pending one
              some { st1 with
                available_shares := dset st1.available_shares share_id
                  { info0 with stale_callback := true } }

/-! ## `_ClientPlaylistTracker` — virtual playlists (client side) -/

/-- The playlist fields `_ClientPlaylistTracker` consults:
`dmap.itemid`, `dmap.itemname` (for `playlist_data_valid`) and the
truthiness of `get('com.apple.itunes.is-podcast-playlist')` (`podcast`). -/
structure PlaylistData where
  itemid : Option Nat
  itemname : Option String
  podcast : Bool
  deriving DecidableEq

/-- `_ClientPlaylistTracker`: `playlist_data` maps DAAP playlist ids to
their latest data, `playlist_items` maps them to their item-id sets
(embedded as lists up to membership). -/
structure ClientPlaylistTracker where
  playlist_data : List (Nat × PlaylistData)
  playlist_items : List (Nat × List Nat)
  deriving DecidableEq

/-- `self.playlist_items[daap_id]` — `update` keeps the two dicts on the
same key set, so the lookup is embedded totally with default `∅`. -/
def tracker_items (t : ClientPlaylistTracker) (daap_id : Nat) : List Nat :=
  (t.playlist_items.lookup daap_id).getD []

/-- `_ClientPlaylistTracker.items_in_podcasts`: union of the memberships
of every playlist whose data bears the podcast flag. -/
def items_in_podcasts (t : ClientPlaylistTracker) : List Nat :=
  t.playlist_data.foldl
    (fun rv p => if p.2.podcast then rv ∪ tracker_items t p.1 else rv) []

/-- `_ClientPlaylistTracker.items_in_playlists`: union of the memberships
of every playlist without the podcast flag. -/
def items_in_playlists (t : ClientPlaylistTracker) : List Nat :=
  t.playlist_data.foldl
    (fun rv p => if !p.2.podcast then rv ∪ tracker_items t p.1 else rv) []

/-- `SharingItemTrackerImpl.update_fake_playlists`: store the two virtual
playlists into the relational playlist-item map. -/
def update_fake_playlists (pm : List (String × List Nat))
    (t : ClientPlaylistTracker) : List (String × List Nat) :=
  dset (dset pm "podcast" (items_in_podcasts t))
    "playlist" (items_in_playlists t)

/-- Membership in the union-fold used by `items_in_podcasts` /
`items_in_playlists`. -/
theorem mem_foldl_union (cond : Nat × PlaylistData → Bool)
    (g : Nat → List Nat) (l : List (Nat × PlaylistData)) (init : List Nat)
    (x : Nat) :
    (x ∈ l.foldl (fun rv p => if cond p then rv ∪ g p.1 else rv) init) ↔
      x ∈ init ∨ ∃ p ∈ l, cond p ∧ x ∈ g p.1 := by
  induction l generalizing init with
  | nil => simp
  | cons q rest ih =>
      by_cases hq : cond q = true
      · simp only [List.foldl_cons, hq, if_true, ih, List.mem_union_iff,
          List.mem_cons]
        constructor
        · rintro (h | ⟨p, hp, hc, hx⟩)
          · rcases h with h | h
            · exact Or.inl h
            · exact Or.inr ⟨q, Or.inl rfl, hq, h⟩
          · exact Or.inr ⟨p, Or.inr hp, hc, hx⟩
        · rintro (h | ⟨p, hp, hc, hx⟩)
          · exact Or.inl (Or.inl h)
          · rcases hp with rfl | hp
            · exact Or.inl (Or.inr hx)
            · exact Or.inr ⟨p, hp, hc, hx⟩
      · simp only [List.foldl_cons, hq, if_false, ih, List.mem_cons]
        constructor
        · rintro (h | ⟨p, hp, hc, hx⟩)
          · exact Or.inl h
          · exact Or.inr ⟨p, Or.inr hp, hc, hx⟩
        · rintro (h | ⟨p, hp, hc, hx⟩)
          · exact Or.inl h
          · rcases hp with rfl | hp
            · exact absurd hc hq
            · exact Or.inr ⟨p, hp, hc, hx⟩

/-- The condition the claim's right-hand side literally describes: some
remote playlist is simultaneously podcast-flagged and non-podcast-flagged
(two `playlist_data` entries under the same id with opposite flags). -/
def both_flagged (t : ClientPlaylistTracker) : Prop :=
  ∃ p ∈ t.playlist_data, ∃ q ∈ t.playlist_data,
    p.1 = q.1 ∧ p.2.podcast = true ∧ q.2.podcast = false

instance (t : ClientPlaylistTracker) : Decidable (both_flagged t) := by
  unfold both_flagged
  infer_instance

/-! ## `SharingItemTrackerImpl.update_sharing_items` — deletion loop

The loop body fetches the `SharingItem` inside a `try` whose `except`
only logs; the `sharing_item.remove()` call sits after the `try`, so it
runs even when the lookup failed, operating on whatever the local
variable `sharing_item` was last bound to (or unbound, raising
`UnboundLocalError`).  The mirrored database is embedded as the list of
daap ids it contains; `bound` is the local variable. -/

def delete_shared_items : List Nat → Option Nat → List Nat →
    Except String (List Nat)
  | db, _, [] => Except.ok db
  | db, bound, item_id :: rest =>
      if item_id ∈ db then
        -- get_by_daap_id succeeds; sharing_item.remove() removes it
        delete_shared_items (db.filter (fun x => decide (x ≠ item_id)))
          (some item_id) rest
      else
        -- ObjectNotFound: logging.warn, then sharing_item.remove() runs
        -- anyway on the stale binding
        match bound with
        | none => Except.error "UnboundLocalError: sharing_item"
        | some prev =>
            -- remove() called a second time on the previously deleted
            -- object (it is already gone from the db)
            delete_shared_items (db.filter (fun x => decide (x ≠ prev)))
              (some prev) rest

/-- The delete phase of `update_sharing_items` entered with the local
variable `sharing_item` unbound. -/
def update_sharing_items_deletes (db : List Nat) (deleted_items : List Nat) :
    Except String (List Nat) :=
  delete_shared_items db none deleted_items

/-! ## `SharingManagerBackend` — server-side catalog

Numeric constants: `SHARE_AUDIO`/`SHARE_VIDEO` are
`libdaap.DAAP_MEDIAKIND_AUDIO`/`_VIDEO` (libdaap is a provided library,
outside `src/`; the DAAP mediakind codes are 1 and 2), `SHARE_FEED` is the
literal `0x4` from the source. -/

def SHARE_AUDIO : Nat := 1
def SHARE_VIDEO : Nat := 2
def SHARE_FEED : Nat := 4

/-- `DURATION_SCALE`: local duration is tenths of a second, DAAP carries
milliseconds. -/
def DURATION_SCALE : Int := 1000

/-- A value of the `daapitems` dict: the keys of `make_item_dict` output
that the claims consult, or a `deleted_item()` tombstone (which carries
only `revision` and `valid=False`; its other keys are absent, hence the
`Option`s / the `""` default for `cover_art`). -/
structure DaapItemRec where
  revision : Nat
  valid : Bool
  path : Option String
  songtime : Option Int
  cover_art : String
  deriving DecidableEq

/-- A value of the `daap_playlists` dict (the fields the claims use). -/
structure DaapPlaylistRec where
  revision : Nat
  valid : Bool
  podcast : Bool
  deriving DecidableEq

/-- The catalog state guarded by `item_lock`: the monotonic `revision`,
the `directed` stamp of the last bump, the share-types filter and the two
record dicts. -/
structure SharingBackend where
  revision : Nat
  directed : Option Nat
  share_types : List Nat
  daapitems : List (Nat × DaapItemRec)
  daap_playlists : List (Nat × DaapPlaylistRec)
  deriving DecidableEq

/-- `SharingManagerBackend.update_revision` (item_lock held): bump the
counter, record who the wakeup is directed at, notify all waiters. -/
def update_revision (st : SharingBackend) (directed : Option Nat) :
    SharingBackend :=
  { st with revision := st.revision + 1, directed := directed }

/-- `SharingManagerBackend.deleted_item`: a tombstone at the current
revision. -/
def deleted_item (st : SharingBackend) : DaapItemRec :=
  { revision := st.revision, valid := false, path := none,
    songtime := none, cover_art := "" }

/-! ### `get_revision` (the long-poll loop)

Each condition-variable wakeup is preceded by exactly one
`update_revision` bump (every mutation and every watcher-thread wakeup
goes through it), so the waits the loop performs are embedded as a list
of `directed` values, one per bump, consumed in order.  An empty list
means the caller is still blocked (`none`). -/

def get_revision_loop (session : Nat) :
    Nat → SharingBackend → List (Option Nat) →
    Option (Nat × SharingBackend)
  | old_revision, st, [] =>
      if st.revision ≠ old_revision then some (st.revision, st) else none
  | old_revision, st, d :: rest =>
      if st.revision ≠ old_revision then some (st.revision, st)
      else
        -- revision_cv.wait() returns after an update_revision(directed=d)
        let st1 := update_revision st d
        if st1.directed = none ∨ st1.directed = some session then
          some (st1.revision, st1)
        else
          -- wakeup directed elsewhere: rebind old_revision and wait again
          get_revision_loop session st1.revision st1 rest

/-! ### `on_config_changed` -/

/-- The three sharing config bits. -/
structure ConfigBits where
  share_audio : Bool
  share_video : Bool
  share_feed : Bool
  deriving DecidableEq

/-- The `share_types` list as built in `__init__` and in
`on_config_changed` (fixed order: audio, video, feed). -/
def compute_share_types (c : ConfigBits) : List Nat :=
  (if c.share_audio then [ SHARE_AUDIO] else []) ++
  (if c.share_video then [SHARE_VIDEO] else []) ++
  (if c.share_feed then [SHARE_FEED] else [])

/-- `SharingManagerBackend.on_config_changed`, inner body for a key among
`SHARE_AUDIO`/`SHARE_VIDEO`/`SHARE_FEED` (other keys leave the state
untouched): recompute `share_types`, bump the revision iff the list
changed, then stamp every playlist and every item with the (possibly new)
current revision. -/
def on_config_changed (st : SharingBackend) (cfg : ConfigBits) :
    SharingBackend :=
  let newTypes := compute_share_types cfg
  let st1 := { st with share_types := newTypes }
  let st2 := if st.share_types ≠ newTypes then update_revision st1 none
             else st1
  { st2 with
    daap_playlists := st2.daap_playlists.map
      (fun p => (p.1, { p.2 with revision := st2.revision })),
    daapitems := st2.daapitems.map
      (fun p => (p.1, { p.2 with revision := st2.revision })) }

/-! ### `make_item_dict` — outbound `daap.songtime`

The fixups of `make_item_dict` run in source order on the raw attribute
value: the `-1 → 0` sentinel replacement first, then the
`daap.songtime` scaling (`*= DURATION_SCALE` when truthy, else `0`).
`None` and `0` are falsy in Python. -/

def make_songtime (duration : Option Int) : Int :=
  let v1 : Option Int :=
    match duration with
    | some d => if d = -1 then some 0 else some d
    | none => none
  match v1 with
  | some d => if d ≠ 0 then d * DURATION_SCALE else 0
  | none => 0

/-- The attributes of a host item (`ItemInfo`) that the embedded slice of
`make_item_dict` reads. -/
structure HostItem where
  id : Nat
  duration : Option Int
  video_path : String
  thumbnail_is_default : Bool
  thumbnail : String
  deriving DecidableEq

/-- One `make_item_dict` entry, restricted to the claim-relevant keys:
the scaled `daap.songtime`, the filesystem `path`, `cover_art` (empty for
a default thumbnail) and the `revision`/`valid` stamps. -/
def make_item_dict_entry (rev : Nat) (item : HostItem) : DaapItemRec :=
  { revision := rev, valid := true,
    path := some item.video_path,
    songtime := some (make_songtime item.duration),
    cover_art := if item.thumbnail_is_default then "" else item.thumbnail }

/-- Modelled from the spec: the inbound unit conversion lives in
`miro.item.SharingItem` (not under `src/`; `convert_raw_sharing_item`
passes the raw `daap.songtime` through unchanged).  Per the spec,
"`daap.songtime` ↔ duration (scale ×1000 out, ÷1000 in)": the
`SharingItem`'s duration is the received milliseconds divided by 1000. -/
def sharing_item_duration (songtime : Int) : Int :=
  songtime / DURATION_SCALE

/-! ### `get_file` and the per-session transcode map -/

/-- `transcode.TranscodeObject` (the transcode pipeline itself is outside
`src/`): the fields `get_file` consults, plus `isseek` — its
"chunk represents a seek beyond the current window" predicate — kept
abstract as a boolean function of the requested chunk. -/
structure TranscodeObject where
  path : String
  itemid : Nat
  generation : Nat
  chunk : Option Nat
  isseek : Nat → Bool

/-- The state guarded by `transcode_lock`: the `in_shutdown` flag and the
session → `TranscodeObject` map. -/
structure TranscodeState where
  in_shutdown : Bool
  transcode : List (Nat × TranscodeObject)

/-- The `ext` argument of `get_file`, as the source's four-way dispatch. -/
inductive GetFileExt where
  | ts
  | m3u8
  | coverart
  | other
  deriving DecidableEq

/-- `os.path.basename` for the POSIX paths the catalog stores. -/
def basename (p : String) : String :=
  (p.splitOn "/").getLastD ""

/-- What one `get_file` call did: whether a file object was produced, the
returned filename, the transcode state afterwards, the jobs it shut down
and the job it created (if any). -/
structure GetFileOutcome where
  served : Bool
  filename : Option String
  tstate : TranscodeState
  shutdownJobs : List TranscodeObject
  createdJob : Option TranscodeObject

/-- The `(None, None)` return. -/
def no_file (ts : TranscodeState) : GetFileOutcome :=
  { served := false, filename := none, tstate := ts,
    shutdownJobs := [], createdJob := none }

/-- `SharingManagerBackend.get_file`.  `none` models the uncaught
`KeyError` of `daapitem['path']` on a tombstone record.  `newSeek` stands
for the `isseek` behaviour of a freshly constructed `TranscodeObject`
(decided inside the transcode pipeline, outside `src/`). -/
def get_file (items : List (Nat × DaapItemRec)) (ts : TranscodeState)
    (itemid generation : Nat) (ext : GetFileExt) (session : Nat)
    (chunk : Option Nat) (newSeek : Nat → Bool) : Option GetFileOutcome :=
  match items.lookup itemid with
  | none => some (no_file ts)  -- KeyError on daapitems[itemid]: (None, None)
  | some daapitem =>
      match daapitem.path with
      | none => none  -- KeyError: tombstones have no 'path'
      | some path =>
          match ext with
          | .ts | .m3u8 =>
              if ts.in_shutdown then some (no_file ts)
              else
                match ts.transcode.lookup session with
                | some tobj =>
                    if tobj.itemid ≠ itemid then
                      -- item mismatch: replace, shutting the old job down
                      let newObj : TranscodeObject :=
                        { path := path, itemid := itemid,
                          generation := generation, chunk := chunk,
                          isseek := newSeek }
                      some { served := true, filename := some (basename path),
                             tstate := { ts with
                               transcode := dset ts.transcode session newObj },
                             shutdownJobs := [tobj],
                             createdJob := some newObj }
                    else if generation < tobj.generation then
                      -- stale request, already satisfied by a newer one
                      some (no_file ts)
                    else
                      match chunk with
                      | some c =>
                          if tobj.isseek c then
                            let newObj : TranscodeObject :=
                              { path := path, itemid := itemid,
                                generation := generation, chunk := chunk,
                                isseek := newSeek }
                            some { served := true,
                                   filename := some (basename path),
                                   tstate := { ts with
                                     transcode :=
                                       dset ts.transcode session newObj },
                                   shutdownJobs := [tobj],
                                   createdJob := some newObj }
                          else
                            some { served := true,
                                   filename := some (basename path),
                                   tstate := { ts with
                                     transcode :=
                                       dset ts.transcode session tobj },
                                   shutdownJobs := [], createdJob := none }
                      | none =>
                          some { served := true,
                                 filename := some (basename path),
                                 tstate := { ts with
                                   transcode :=
                                     dset ts.transcode session tobj },
                                 shutdownJobs := [], createdJob := none }
                | none =>
                    -- no job for this session yet: create one
                    let newObj : TranscodeObject :=
                      { path := path, itemid := itemid,
                        generation := generation, chunk := chunk,
                        isseek := newSeek }
                    some { served := true, filename := some (basename path),
                           tstate := { ts with
                             transcode := dset ts.transcode session newObj },
                           shutdownJobs := [], createdJob := some newObj }
          | .coverart =>
              some { served := decide (daapitem.cover_art ≠ ""),
                     filename := some (basename path), tstate := ts,
                     shutdownJobs := [], createdJob := none }
          | .other =>
              -- discard any outstanding transcode job (without shutdown),
              -- then serve the underlying file
              some { served := true, filename := some (basename path),
                     tstate := { ts with
                       transcode := dremove ts.transcode session },
                     shutdownJobs := [], createdJob := none }

/-! ## Further helper lemmas -/

theorem lookup_dremove_ne {K V : Type} [DecidableEq K] [BEq K] [LawfulBEq K]
    (m : List (K × V)) (k k' : K) (h : k' ≠ k) :
    (dremove m k).lookup k' = m.lookup k' := by
  induction m with
  | nil => rfl
  | cons p rest ih =>
      obtain ⟨pk, pv⟩ := p
      by_cases hp : pk = k
      · have h1 : dremove ((pk, pv) :: rest) k = dremove rest k := by
          simp [dremove, List.filter_cons, hp]
        have h2 : (k' == pk) = false :=
          beq_eq_false_iff_ne.mpr (by rw [hp]; exact h)
        rw [h1, ih]
        simp [List.lookup, h2]
      · have h1 : dremove ((pk, pv) :: rest) k =
            (pk, pv) :: dremove rest k := by
          simp [dremove, List.filter_cons, hp]
        rw [h1]
        by_cases hk : k' = pk
        · simp [List.lookup, hk]
        · have h2 : (k' == pk) = false := beq_eq_false_iff_ne.mpr hk
          simp [List.lookup, h2, ih]

theorem forall₂_map_self {α β : Type} (l : List α) (f : α → β)
    (r : α → β → Prop) (h : ∀ a ∈ l, r a (f a)) :
    List.Forall₂ r l (l.map f) := by
  induction l with
  | nil => simp
  | cons a rest ih =>
      simp only [List.map_cons, List.forall₂_cons]
      exact ⟨h a (List.mem_cons_self a rest),
             ih (fun b hb => h b (List.mem_cons_of_mem a hb))⟩

/-- `find_unused_db` never hands out a path that is in `_used_db_paths`,
and never changes `_used_db_paths` itself. -/
theorem find_unused_db_from_spec (env : ShareEnv) :
    ∀ n i p env2, find_unused_db_from env n i = some (p, env2) →
      p ∉ env.used_db_paths ∧ env2.used_db_paths = env.used_db_paths := by
  intro n
  induction n with
  | zero => intro i p env2 h; simp [find_unused_db_from] at h
  | succ n ih =>
      intro i p env2 h
      unfold find_unused_db_from at h
      by_cases hc : sharingDbCandidate i ∈ env.used_db_paths
      · rw [if_pos hc] at h
        exact ih (i + 1) p env2 h
      · rw [if_neg hc] at h
        cases hf : env.files.lookup (sharingDbCandidate i) with
        | none =>
            rw [hf] at h
            cases h
            exact ⟨hc, rfl⟩
        | some removable =>
            rw [hf] at h
            cases removable with
            | false =>
                simp only [Bool.false_eq_true, if_false] at h
                exact ih (i + 1) p env2 h
            | true =>
                simp only [if_true] at h
                cases h
                exact ⟨hc, rfl⟩

/-- Whatever else the `added` branch does, it binds
`name_to_id_map[fullname] = abs(hash((host, port)))` and leaves the rest
of `name_to_id_map` as updated. -/
theorem mdns_added_name_map (hashFn : String → Nat → Int)
    (selfName : String) (st : TrackerState) (fullname host : String)
    (port : Nat) (u : Nat) (h : fullname ≠ selfName) :
    (mdns_added hashFn selfName st fullname host port u).name_to_id_map =
      dset st.name_to_id_map fullname (hashFn host port).natAbs := by
  unfold mdns_added
  rw [if_neg h]
  dsimp only
  split
  · rfl
  · split
    · split <;> rfl
    · rfl

/-! ## The claims -/

/-- C10: a `get_file` request whose `itemid` is not a key of `daapitems`
returns `(None, None)` and leaves the per-session transcode map
untouched: no job is created, replaced or shut down. -/
theorem get_file_unknown_item (items : List (Nat × DaapItemRec))
    (ts : TranscodeState) (itemid generation : Nat) (ext : GetFileExt)
    (session : Nat) (chunk : Option Nat) (newSeek : Nat → Bool)
    (h : items.lookup itemid = none) :
    get_file items ts itemid generation ext session chunk newSeek =
        some (no_file ts)
      ∧ (no_file ts).served = false
      ∧ (no_file ts).tstate = ts
      ∧ (no_file ts).shutdownJobs = []
      ∧ (no_file ts).createdJob = none := by
  refine ⟨?_, rfl, rfl, rfl, rfl⟩
  unfold get_file
  rw [h]

/-- C10 witness: a concrete request for an id absent from the catalog. -/
theorem get_file_unknown_item_witness :
    get_file [] ⟨false, []⟩ 3 0 GetFileExt.m3u8 0 none (fun _ => false) =
        some (no_file ⟨false, []⟩)
      ∧ (no_file ⟨false, []⟩).served = false
      ∧ (no_file ⟨false, []⟩).tstate = (⟨false, []⟩ : TranscodeState)
      ∧ (no_file ⟨false, []⟩).shutdownJobs = []
      ∧ (no_file ⟨false, []⟩).createdJob = none :=
  get_file_unknown_item [] ⟨false, []⟩ 3 0 GetFileExt.m3u8 0 none
    (fun _ => false) rfl

/-- C7: the claim (and the code's own log message) say a missing
`SharingItem` during delete is warn-logged and never fatal; but
`sharing_item.remove()` sits outside the `try`, so when the very first id
of `deleted_items` is unknown the loop dereferences the unbound local
`sharing_item` and raises `UnboundLocalError`.  Evaluated at the failing
input: empty mirrored database, `deleted_items = [42]`. -/
theorem update_sharing_items_delete_unknown_fatal :
    update_sharing_items_deletes [] [42] =
      Except.error "UnboundLocalError: sharing_item" := by
  rfl

/-- C9 counterexample: starting from a fresh process state, the first
`Share` claims `sharing-db-0`; `destroy()` leaves `_used_db_paths`
unchanged (it is never released), so the next `Share` claims
`sharing-db-1` rather than re-claiming the freed slot. -/
theorem share_destroy_does_not_release :
    share_init ⟨[], []⟩ =
        some (⟨some "sharing-db-0"⟩, ⟨["sharing-db-0"], []⟩)
      ∧ (share_destroy ⟨["sharing-db-0"], []⟩ ⟨some "sharing-db-0"⟩).2 =
        ⟨["sharing-db-0"], []⟩
      ∧ share_init ⟨["sharing-db-0"], []⟩ =
        some (⟨some "sharing-db-1"⟩, ⟨["sharing-db-1", "sharing-db-0"], []⟩) := by
  refine ⟨?_, ?_, ?_⟩ <;> rfl

/-- C9 (amended): a Share's database path enters the process-wide in-use
set at construction and is never removed: `destroy()` deletes the file
but leaves `_used_db_paths` unchanged, so a destroyed Share's slot is not
reused within the process. -/
theorem share_db_path_lifecycle :
    (∀ env sh, ((share_destroy env sh).2).used_db_paths =
        env.used_db_paths)
    ∧ (∀ env sh env', share_init env = some (sh, env') →
        ∃ p, sh.db_path = some p ∧ p ∈ env'.used_db_paths ∧
          p ∉ env.used_db_paths) := by
  constructor
  · intro env sh
    unfold share_destroy
    cases sh.db_path <;> rfl
  · intro env sh env' h
    unfold share_init at h
    cases hf : find_unused_db env with
    | none => rw [hf] at h; cases h
    | some pe =>
        obtain ⟨path, envf⟩ := pe
        rw [hf] at h
        cases h
        have hspec := find_unused_db_from_spec env 300 0 path envf hf
        exact ⟨path, rfl, List.mem_cons_self _ _, hspec.1⟩

/-- C9 amended witness: the lifecycle theorem applied to the concrete
fresh-process construction. -/
theorem share_db_path_lifecycle_witness :
    ∃ p, (ShareObj.mk (some "sharing-db-0")).db_path = some p ∧
      p ∈ (ShareEnv.mk ["sharing-db-0"] []).used_db_paths ∧
      p ∉ (ShareEnv.mk [] []).used_db_paths :=
  share_db_path_lifecycle.2 ⟨[], []⟩ ⟨some "sharing-db-0"⟩
    ⟨["sharing-db-0"], []⟩ (by rfl)

/-- C4 counterexample: an exported item whose duration is the `-1`
"unknown" sentinel is sent as `daap.songtime = 0`, not
`-1 * DURATION_SCALE` as the claim's unconditional ×1000 rule demands
(`make_item_dict` replaces `-1` by `0` before scaling). -/
theorem songtime_sentinel_counterexample :
    make_songtime (some (-1)) ≠ (-1) * DURATION_SCALE
      ∧ make_songtime (some (-1)) = 0
      ∧ (make_item_dict_entry 1 ⟨1, some (-1), "/m.mp4", true, ""⟩).songtime
          = some 0 := by
  refine ⟨by decide, by decide, by decide⟩

/-- C4 (amended): duration is tenths of a second internally and
milliseconds on the wire.  Outbound, `daap.songtime` is the duration
×1000 for every duration except the `-1` sentinel and `null`, which are
sent as `0`; inbound (modelled from the spec, the conversion lives in
`miro.item.SharingItem`, outside `src/`) the duration is the received
`daap.songtime` ÷1000, so the round trip recovers every non-sentinel
duration. -/
theorem songtime_scale (x : Int) (hx : x ≠ -1) :
    ((∀ rev item, (make_item_dict_entry rev item).songtime =
        some (make_songtime item.duration))
      ∧ make_songtime (some (-1)) = 0
      ∧ make_songtime none = 0
      ∧ (∀ s : Int, sharing_item_duration s = s / DURATION_SCALE))
    ∧ make_songtime (some x) = x * DURATION_SCALE
    ∧ sharing_item_duration (make_songtime (some x)) = x := by
  refine ⟨⟨fun rev item => rfl, by decide, rfl, fun s => rfl⟩, ?_⟩
  by_cases h0 : x = 0
  · subst h0
    refine ⟨by decide, by decide⟩
  · have h1 : make_songtime (some x) = x * DURATION_SCALE := by
      simp [make_songtime, hx, h0]
    refine ⟨h1, ?_⟩
    rw [h1]
    unfold sharing_item_duration DURATION_SCALE
    exact Int.mul_ediv_cancel x (by norm_num)

/-- C4 amended witness: the scale theorem at duration 7 (0.7 seconds,
sent as 700 ms and recovered). -/
theorem songtime_scale_witness :
    make_songtime (some 7) = 7 * DURATION_SCALE
      ∧ sharing_item_duration (make_songtime (some 7)) = 7 :=
  (songtime_scale 7 (by decide)).2

/-- C1: every `added` event (other than the filtered self-name) computes
`share_id = abs(hash((host, port)))` and binds it to the advertised
fullname in `name_to_id_map`; two `added` events agreeing on
`(host, port)` therefore bind the same share id regardless of fullname,
so a rename never changes a share's identity. -/
theorem share_id_stable_under_rename (hashFn : String → Nat → Int)
    (selfName : String) (st st2 : TrackerState)
    (fullname fullname2 host : String) (port : Nat) (u u2 : Nat)
    (h : fullname ≠ selfName) (h2 : fullname2 ≠ selfName) :
    ((mdns_added hashFn selfName st fullname host port u).name_to_id_map.lookup
        fullname = some (hashFn host port).natAbs)
    ∧ ((mdns_added hashFn selfName st2 fullname2 host port u2).name_to_id_map.lookup
        fullname2 =
      (mdns_added hashFn selfName st fullname host port u).name_to_id_map.lookup
        fullname) := by
  have e1 := mdns_added_name_map hashFn selfName st fullname host port u h
  have e2 := mdns_added_name_map hashFn selfName st2 fullname2 host port u2 h2
  rw [e1, e2, lookup_dset_self, lookup_dset_self]
  exact ⟨rfl, rfl⟩

/-- C1 witness: two adds "A" and "B" for the same `(host, port)` under a
concrete stand-in hash. -/
theorem share_id_stable_under_rename_witness :
    ((mdns_added (fun _ _ => (-5 : Int)) "me" ⟨[], [], [], [], []⟩
        "A" "h" 1 0).name_to_id_map.lookup "A" = some ((-5 : Int)).natAbs)
    ∧ ((mdns_added (fun _ _ => (-5 : Int)) "me" ⟨[], [], [], [], []⟩
        "B" "h" 1 1).name_to_id_map.lookup "B" =
      (mdns_added (fun _ _ => (-5 : Int)) "me" ⟨[], [], [], [], []⟩
        "A" "h" 1 0).name_to_id_map.lookup "A") := by
  have h := share_id_stable_under_rename (fun _ _ => (-5 : Int)) "me"
    ⟨[], [], [], [], []⟩ ⟨[], [], [], [], []⟩ "A" "B" "h" 1 0 1
    (by decide) (by decide)
  exact ⟨h.1, h.2⟩

/-- C2: whenever `get_revision` returns (given that the caller's
`old_revision` does not exceed the current revision, which monotonicity
guarantees), the returned revision is strictly greater than
`old_revision`, and the return happens only because the revision had
really advanced (entry check, or a bump whose `directed` is `None`) or
because the last wakeup was directed at this very session.  A wakeup
directed at a different session instead rebinds `old_revision` to the
current revision and waits again (second conjunct). -/
theorem get_revision_spec :
    (∀ (session old : Nat) (st : SharingBackend) (evs : List (Option Nat))
        (r : Nat) (st' : SharingBackend),
        old ≤ st.revision →
        get_revision_loop session old st evs = some (r, st') →
        old < r ∧ r = st'.revision ∧
          ((st.revision ≠ old ∧ st' = st) ∨ st'.directed = none ∨
            st'.directed = some session))
    ∧ (∀ (session old : Nat) (st : SharingBackend) (d : Option Nat)
        (rest : List (Option Nat)),
        st.revision = old →
        ¬(d = none ∨ d = some session) →
        get_revision_loop session old st (d :: rest) =
          get_revision_loop session (update_revision st d).revision
            (update_revision st d) rest) := by
  constructor
  · intro session old st evs
    induction evs generalizing old st with
    | nil =>
        intro r st' hle h
        unfold get_revision_loop at h
        by_cases hne : st.revision ≠ old
        · rw [if_pos hne] at h
          simp only [Option.some.injEq, Prod.mk.injEq] at h
          obtain ⟨rfl, rfl⟩ := h
          exact ⟨lt_of_le_of_ne hle (fun he => hne he.symm), rfl,
            Or.inl ⟨hne, rfl⟩⟩
        · rw [if_neg hne] at h
          cases h
    | cons d rest ih =>
        intro r st' hle h
        unfold get_revision_loop at h
        by_cases hne : st.revision ≠ old
        · rw [if_pos hne] at h
          simp only [Option.some.injEq, Prod.mk.injEq] at h
          obtain ⟨rfl, rfl⟩ := h
          exact ⟨lt_of_le_of_ne hle (fun he => hne he.symm), rfl,
            Or.inl ⟨hne, rfl⟩⟩
        · rw [if_neg hne] at h
          push_neg at hne
          by_cases hcond : (update_revision st d).directed = none ∨
              (update_revision st d).directed = some session
          · rw [if_pos hcond] at h
            simp only [Option.some.injEq, Prod.mk.injEq] at h
            obtain ⟨rfl, rfl⟩ := h
            have hrev : (update_revision st d).revision = st.revision + 1 :=
              rfl
            exact ⟨by omega, rfl, Or.inr hcond⟩
          · rw [if_neg hcond] at h
            obtain ⟨hlt, hr, hdisj⟩ :=
              ih (update_revision st d).revision (update_revision st d)
                r st' (le_refl _) h
            have hrev : (update_revision st d).revision = st.revision + 1 :=
              rfl
            refine ⟨by omega, hr, ?_⟩
            rcases hdisj with ⟨hne2, _⟩ | h' | h'
            · exact absurd rfl hne2
            · exact Or.inr (Or.inl h')
            · exact Or.inr (Or.inr h')
  · intro session old st d rest heq hcond
    conv_lhs => unfold get_revision_loop
    rw [if_neg (by simp [heq])]
    dsimp only [update_revision]
    rw [if_neg hcond]

/-- C2 witness: session 1 waits from revision 10; a wakeup directed at
session 2 rebinds and waits again, then an undirected bump returns 12. -/
theorem get_revision_spec_witness :
    ((10 : Nat) < 12 ∧
      (12 : Nat) = (⟨12, none, [], [], []⟩ : SharingBackend).revision ∧
      (((⟨10, none, [], [], []⟩ : SharingBackend).revision ≠ 10 ∧
          (⟨12, none, [], [], []⟩ : SharingBackend) =
            (⟨10, none, [], [], []⟩ : SharingBackend)) ∨
        (⟨12, none, [], [], []⟩ : SharingBackend).directed = none ∨
        (⟨12, none, [], [], []⟩ : SharingBackend).directed = some 1))
    ∧ (get_revision_loop 1 10 ⟨10, none, [], [], []⟩ [some 2, none] =
        get_revision_loop 1
          (update_revision ⟨10, none, [], [], []⟩ (some 2)).revision
          (update_revision ⟨10, none, [], [], []⟩ (some 2)) [none]) := by
  constructor
  · exact get_revision_spec.1 1 10 ⟨10, none, [], [], []⟩ [some 2, none]
      12 ⟨12, none, [], [], []⟩ (by decide) (by rfl)
  · exact get_revision_spec.2 1 10 ⟨10, none, [], [], []⟩ (some 2) [none]
      (by rfl) (by decide)

/-- When the share-types set changed, `on_config_changed` bumps the
revision once (undirected) and stamps every record. -/
theorem on_config_changed_eq (st : SharingBackend) (cfg : ConfigBits)
    (h : st.share_types ≠ compute_share_types cfg) :
    on_config_changed st cfg =
      { revision := st.revision + 1, directed := none,
        share_types := compute_share_types cfg,
        daapitems := st.daapitems.map
          (fun p => (p.1, { p.2 with revision := st.revision + 1 })),
        daap_playlists := st.daap_playlists.map
          (fun p => (p.1, { p.2 with revision := st.revision + 1 })) } := by
  simp only [on_config_changed, update_revision]
  rw [if_pos h]

/-- C3: a config change to the audio/video/feed sharing bits that alters
the effective share-types set bumps the catalog revision and stamps every
item and playlist record with the new revision, so each record's recorded
revision strictly exceeds its pre-change revision (given the invariant
that no record is stamped beyond the current revision). -/
theorem config_change_bumps_all (st : SharingBackend) (cfg : ConfigBits)
    (hchange : compute_share_types cfg ≠ st.share_types)
    (hitems : ∀ p ∈ st.daapitems, p.2.revision ≤ st.revision)
    (hpls : ∀ p ∈ st.daap_playlists, p.2.revision ≤ st.revision) :
    (on_config_changed st cfg).revision = st.revision + 1
    ∧ List.Forall₂ (fun a b => a.1 = b.1 ∧ a.2.revision < b.2.revision)
        st.daapitems (on_config_changed st cfg).daapitems
    ∧ List.Forall₂ (fun a b => a.1 = b.1 ∧ a.2.revision < b.2.revision)
        st.daap_playlists (on_config_changed st cfg).daap_playlists := by
  rw [on_config_changed_eq st cfg (Ne.symm hchange)]
  refine ⟨rfl, ?_, ?_⟩
  · exact forall₂_map_self _ _ _
      (fun p hp => ⟨rfl, Nat.lt_succ_of_le (hitems p hp)⟩)
  · exact forall₂_map_self _ _ _
      (fun p hp => ⟨rfl, Nat.lt_succ_of_le (hpls p hp)⟩)

/-- C3 witness: turning feed sharing on (share-types `[1]` → `[4]`) at
revision 5, with one item record and one playlist record. -/
theorem config_change_bumps_all_witness :
    (on_config_changed
        ⟨5, none, [1], [(1, ⟨3, true, none, none, ""⟩)],
          [(2, ⟨4, true, false⟩)]⟩
        ⟨false, false, true⟩).revision = 5 + 1
    ∧ List.Forall₂ (fun a b => a.1 = b.1 ∧ a.2.revision < b.2.revision)
        [(1, (⟨3, true, none, none, ""⟩ : DaapItemRec))]
        (on_config_changed
          ⟨5, none, [1], [(1, ⟨3, true, none, none, ""⟩)],
            [(2, ⟨4, true, false⟩)]⟩
          ⟨false, false, true⟩).daapitems
    ∧ List.Forall₂ (fun a b => a.1 = b.1 ∧ a.2.revision < b.2.revision)
        [(2, (⟨4, true, false⟩ : DaapPlaylistRec))]
        (on_config_changed
          ⟨5, none, [1], [(1, ⟨3, true, none, none, ""⟩)],
            [(2, ⟨4, true, false⟩)]⟩
          ⟨false, false, true⟩).daap_playlists :=
  config_change_bumps_all
    ⟨5, none, [1], [(1, ⟨3, true, none, none, ""⟩)], [(2, ⟨4, true, false⟩)]⟩
    ⟨false, false, true⟩ (by decide)
    (by intro p hp; simp only [List.mem_singleton] at hp; subst hp; decide)
    (by intro p hp; simp only [List.mem_singleton] at hp; subst hp; decide)

/-- A `SharingDisappeared` message is in the stream. -/
def is_disappeared_msg : FrontendMessage → Bool
  | .sharingDisappeared _ => true
  | _ => false

/-- The tracker state after a fresh share "ShareA" is added (share id 5
under the stand-in hash) and its scheduled test-connect has FAILED. -/
def c6_after_add : TrackerState :=
  mdns_added (fun _ _ => (5 : Int)) "me" ⟨[], [], [], [], []⟩ "ShareA" "h" 7 9

def c6_after_failure : TrackerState := try_to_add_failure c6_after_add 5 9

/-- C6 counterexample: the failure callback of `try_to_add` also clears
`connect_uuid`, so after a FAILED test-connect (share never published,
`share_available` still false) a `removed` event for the unconnected
share still emits `SharingDisappeared` — the claim says a disappeared
message is sent only when the test-connect had succeeded. -/
theorem disappeared_after_failed_testconnect :
    ((c6_after_failure.available_shares.lookup 5).map
        (fun i => i.share_available) = some false)
    ∧ ((c6_after_failure.available_shares.lookup 5).map
        (fun i => i.connect_uuid) = some none)
    ∧ ((mdns_removed "me" c6_after_failure "ShareA").map
        (fun s => s.messages.any is_disappeared_msg) = some true) := by
  decide

/-- C6 (amended): on a `removed` event for a share that is not connected,
the share is removed immediately, and `SharingDisappeared` is emitted iff
the share's test-connect had previously COMPLETED (`connect_uuid` is
`None` after either the success or the failure callback); only a
still-pending test-connect suppresses the message. -/
theorem disappeared_iff_tested (selfName : String) (st : TrackerState)
    (fullname : String) (share_id : Nat) (victim : SharingInfoRec)
    (h : fullname ≠ selfName)
    (hlookup : st.name_to_id_map.lookup fullname = some share_id)
    (hvals : share_id ∉ (dremove st.name_to_id_map fullname).map (·.2))
    (htr : share_id ∉ st.trackers)
    (hav : st.available_shares.lookup share_id = some victim)
    (hsh : share_id ∈ st.shares) :
    ∃ st', mdns_removed selfName st fullname = some st' ∧
      st'.available_shares.lookup share_id = none ∧
      st'.messages = st.messages ++
        (if victim.connect_uuid = none
          then [FrontendMessage.sharingDisappeared victim] else []) := by
  unfold mdns_removed
  rw [if_neg h, hlookup]
  dsimp only
  rw [if_neg hvals, if_pos htr, hav]
  dsimp only
  rw [if_pos hsh]
  by_cases hu : victim.connect_uuid = none
  · rw [if_pos hu, if_pos hu]
    exact ⟨_, rfl, lookup_dremove_self _ _, rfl⟩
  · rw [if_neg hu, if_neg hu]
    exact ⟨_, rfl, lookup_dremove_self _ _, by simp⟩

/-- C6 amended witness: a tested share (uuid cleared) that is present but
not connected disappears with a message on removal. -/
theorem disappeared_iff_tested_witness :
    ∃ st', mdns_removed "me"
        ⟨[("A", 3)], [], [3],
          [(3, ⟨"A", "h", 1, none, true, false, false⟩)], []⟩ "A" =
        some st' ∧
      st'.available_shares.lookup 3 = none ∧
      st'.messages = [] ++
        (if (SharingInfoRec.mk "A" "h" 1 none true false false).connect_uuid
            = none
          then [FrontendMessage.sharingDisappeared
            ⟨"A", "h", 1, none, true, false, false⟩] else []) :=
  disappeared_iff_tested "me"
    ⟨[("A", 3)], [], [3], [(3, ⟨"A", "h", 1, none, true, false, false⟩)], []⟩
    "A" 3 ⟨"A", "h", 1, none, true, false, false⟩
    (by decide) rfl (by decide) (by decide) rfl (by decide)

/-- A tracker state with one podcast playlist and one plain playlist that
share item 10. -/
def c8_tracker : ClientPlaylistTracker :=
  ⟨[(1, ⟨some 1, some "P", true⟩), (2, ⟨some 2, some "Q", false⟩)],
   [(1, [10]), (2, [10])]⟩

/-- C8 counterexample: no remote playlist can be simultaneously
podcast-flagged and non-podcast-flagged (the flag is one boolean per
playlist), yet the two virtual playlists are NOT disjoint whenever one
item sits in both a podcast playlist and a plain playlist — so the
claimed equivalence fails at `c8_tracker`. -/
theorem virtual_playlists_not_always_disjoint :
    ¬((∀ y ∈ items_in_podcasts c8_tracker,
        y ∉ items_in_playlists c8_tracker) ↔ ¬both_flagged c8_tracker) := by
  decide

/-- C8 (amended): after `update_fake_playlists`, the virtual playlist
"podcast" is exactly the union of the memberships of podcast-flagged
playlists and "playlist" the union of the non-podcast ones, and the two
are disjoint iff no single ITEM belongs to both a podcast-flagged and a
non-podcast playlist. -/
theorem virtual_playlists_characterization (t : ClientPlaylistTracker)
    (pm : List (String × List Nat)) (x : Nat) :
    ((update_fake_playlists pm t).lookup "podcast" =
        some (items_in_podcasts t)
      ∧ (update_fake_playlists pm t).lookup "playlist" =
        some (items_in_playlists t))
    ∧ (x ∈ items_in_podcasts t ↔
        ∃ p ∈ t.playlist_data, p.2.podcast = true ∧ x ∈ tracker_items t p.1)
    ∧ (x ∈ items_in_playlists t ↔
        ∃ p ∈ t.playlist_data, p.2.podcast = false ∧ x ∈ tracker_items t p.1)
    ∧ ((∀ y ∈ items_in_podcasts t, y ∉ items_in_playlists t) ↔
        ¬∃ y, (∃ p ∈ t.playlist_data, p.2.podcast = true ∧
                y ∈ tracker_items t p.1)
            ∧ (∃ q ∈ t.playlist_data, q.2.podcast = false ∧
                y ∈ tracker_items t q.1)) := by
  have hpod : ∀ z, z ∈ items_in_podcasts t ↔
      ∃ p ∈ t.playlist_data, p.2.podcast = true ∧
        z ∈ tracker_items t p.1 := by
    intro z
    have := mem_foldl_union (fun p => p.2.podcast) (tracker_items t)
      t.playlist_data [] z
    simpa [items_in_podcasts] using this
  have hpl : ∀ z, z ∈ items_in_playlists t ↔
      ∃ p ∈ t.playlist_data, p.2.podcast = false ∧
        z ∈ tracker_items t p.1 := by
    intro z
    have := mem_foldl_union (fun p => !p.2.podcast) (tracker_items t)
      t.playlist_data [] z
    simpa [items_in_playlists, Bool.not_eq_true'] using this
  refine ⟨⟨?_, ?_⟩, hpod x, hpl x, ?_⟩
  · rw [update_fake_playlists, lookup_dset_ne _ _ _ _ (by decide),
      lookup_dremove_ne _ _ _ (by decide), lookup_dset_self]
  · rw [update_fake_playlists, lookup_dset_self]
  · constructor
    · rintro hdisj ⟨y, hy1, hy2⟩
      exact hdisj y ((hpod y).mpr hy1) ((hpl y).mpr hy2)
    · intro hno y hy hy2
      exact hno ⟨y, (hpod y).mp hy, (hpl y).mp hy2⟩

/-- C8 amended witness: the characterization evaluated on the concrete
two-playlist tracker. -/
theorem virtual_playlists_characterization_witness :
    (update_fake_playlists [] c8_tracker).lookup "podcast" =
        some (items_in_podcasts c8_tracker)
      ∧ (10 ∈ items_in_podcasts c8_tracker ↔
        ∃ p ∈ c8_tracker.playlist_data, p.2.podcast = true ∧
          10 ∈ tracker_items c8_tracker p.1) :=
  ⟨(virtual_playlists_characterization c8_tracker [] 10).1.1,
    (virtual_playlists_characterization c8_tracker [] 10).2.1⟩

/-- An existing transcode job for item 1 at generation 1 (no seek). -/
def c5_job : TranscodeObject := ⟨"/m.mp4", 1, 1, none, fun _ => false⟩

/-- C5 counterexample: a `.m3u8` request for the SAME item with a NEWER
generation (2 > 1) and no seeking chunk keeps the existing job — nothing
is shut down and nothing is created — whereas the claim says a newer
generation replaces the job. -/
theorem newer_generation_keeps_job :
    c5_job.generation < 2
    ∧ get_file [(1, ⟨3, true, some "/m.mp4", some 0, ""⟩)]
        ⟨false, [(0, c5_job)]⟩ 1 2 GetFileExt.m3u8 0 none (fun _ => false) =
      some { served := true, filename := some (basename "/m.mp4"),
             tstate := ⟨false, [(0, c5_job)]⟩,
             shutdownJobs := [], createdJob := none } := by
  exact ⟨by decide, rfl⟩

/-- C5 (amended): for a `ts`/`m3u8` request hitting an existing job for
the session: a request whose generation is older than the job's — WITH a
matching item, since the item check comes first — returns `(None, None)`
and keeps the job; and the job is shut down and replaced by a fresh one
iff the requested item differs from the job's item, or the item matches,
the generation is not older, and the chunk is a seek beyond the current
window.  (A newer generation alone does not replace the job.) -/
theorem transcode_replacement_policy
    (items : List (Nat × DaapItemRec)) (ts : TranscodeState)
    (itemid generation session : Nat) (it : DaapItemRec) (path : String)
    (chunk : Option Nat) (newSeek : Nat → Bool) (tobj : TranscodeObject)
    (ext : GetFileExt)
    (hit : items.lookup itemid = some it)
    (hpath : it.path = some path)
    (hshut : ts.in_shutdown = false)
    (hjob : ts.transcode.lookup session = some tobj)
    (hext : ext = GetFileExt.ts ∨ ext = GetFileExt.m3u8) :
    ((tobj.itemid = itemid ∧ generation < tobj.generation) →
        get_file items ts itemid generation ext session chunk newSeek =
          some (no_file ts))
    ∧ (∀ out,
        get_file items ts itemid generation ext session chunk newSeek =
          some out →
        ((out.shutdownJobs = [tobj]
          ∧ out.createdJob = some ⟨path, itemid, generation, chunk, newSeek⟩
          ∧ out.tstate.transcode = dset ts.transcode session
              ⟨path, itemid, generation, chunk, newSeek⟩)
          ↔ (tobj.itemid ≠ itemid ∨
            (¬generation < tobj.generation ∧
              ∃ c, chunk = some c ∧ tobj.isseek c = true)))) := by
  let newObj : TranscodeObject :=
    ⟨path, itemid, generation, chunk, newSeek⟩
  let replaced : GetFileOutcome :=
    { served := true, filename := some (basename path),
      tstate := ⟨false, dset ts.transcode session newObj⟩,
      shutdownJobs := [tobj], createdJob := some newObj }
  let kept : GetFileOutcome :=
    { served := true, filename := some (basename path),
      tstate := ⟨false, dset ts.transcode session tobj⟩,
      shutdownJobs := [], createdJob := none }
  have hbody :
      get_file items ts itemid generation ext session chunk newSeek =
        (if tobj.itemid ≠ itemid then some replaced
        else if generation < tobj.generation then some (no_file ts)
        else
          match chunk with
          | some c => if tobj.isseek c then some replaced else some kept
          | none => some kept) := by
    rcases hext with rfl | rfl <;>
      simp only [get_file, hit, hpath, hshut, Bool.false_eq_true,
        if_false, hjob]
  constructor
  · rintro ⟨hid, hgen⟩
    rw [hbody, if_neg (by simpa using hid), if_pos hgen]
  · intro out hout
    rw [hbody] at hout
    by_cases hid : tobj.itemid = itemid
    · rw [if_neg (by simpa using hid)] at hout
      by_cases hgen : generation < tobj.generation
      · rw [if_pos hgen] at hout
        simp only [Option.some.injEq] at hout
        subst hout
        constructor
        · rintro ⟨hsj, _, _⟩
          cases hsj
        · rintro (hc | ⟨hng, _⟩)
          · exact absurd hid hc
          · exact absurd hgen hng
      · rw [if_neg hgen] at hout
        cases chunk with
        | none =>
            simp only [Option.some.injEq] at hout
            subst hout
            constructor
            · rintro ⟨hsj, _, _⟩
              cases hsj
            · rintro (hc | ⟨_, c, hcc, _⟩)
              · exact absurd hid hc
              · cases hcc
        | some c =>
            dsimp only at hout
            by_cases hseek : tobj.isseek c = true
            · rw [if_pos hseek] at hout
              simp only [Option.some.injEq] at hout
              subst hout
              refine iff_of_true ⟨rfl, rfl, rfl⟩ ?_
              exact Or.inr ⟨hgen, c, rfl, hseek⟩
            · rw [if_neg hseek] at hout
              simp only [Option.some.injEq] at hout
              subst hout
              constructor
              · rintro ⟨hsj, _, _⟩
                cases hsj
              · rintro (hc | ⟨_, c', hcc, hsk⟩)
                · exact absurd hid hc
                · rw [Option.some.injEq] at hcc
                  subst hcc
                  exact absurd hsk hseek
    · rw [if_pos (by simpa using hid)] at hout
      simp only [Option.some.injEq] at hout
      subst hout
      exact iff_of_true ⟨rfl, rfl, rfl⟩ (Or.inl hid)

/-- An existing job for a DIFFERENT item (item 2) for session 0. -/
def c5_wjob : TranscodeObject := ⟨"/x.mp4", 2, 1, none, fun _ => false⟩

/-- The outcome of the witness request below (item mismatch ⇒ replace). -/
def c5_witness_out : GetFileOutcome :=
  { served := true, filename := some (basename "/m.mp4"),
    tstate := ⟨false, dset [(0, c5_wjob)] 0
      ⟨"/m.mp4", 1, 5, none, fun _ => false⟩⟩,
    shutdownJobs := [c5_wjob],
    createdJob := some ⟨"/m.mp4", 1, 5, none, fun _ => false⟩ }

/-- C5 amended witness: a request for item 1 against a session whose job
transcodes item 2 shuts the old job down and creates a fresh one. -/
theorem transcode_replacement_policy_witness :
    c5_witness_out.shutdownJobs = [c5_wjob]
    ∧ c5_witness_out.createdJob =
        some ⟨"/m.mp4", 1, 5, none, fun _ => false⟩
    ∧ c5_witness_out.tstate.transcode =
        dset [(0, c5_wjob)] 0 ⟨"/m.mp4", 1, 5, none, fun _ => false⟩ := by
  have h := (transcode_replacement_policy
    [(1, ⟨3, true, some "/m.mp4", some 0, ""⟩)] ⟨false, [(0, c5_wjob)]⟩
    1 5 0 ⟨3, true, some "/m.mp4", some 0, ""⟩ "/m.mp4" none
    (fun _ => false) c5_wjob GetFileExt.ts
    rfl rfl rfl rfl (Or.inl rfl)).2 c5_witness_out rfl
  exact h.mpr (Or.inl (by decide))

end Sharing
